import Mathlib

/-!
Verification of the agents/environments simulation core of `agents.py`
(AIMA Python, chapters 1-2): the abstract `Environment` protocol
(`step`, `run`, `is_done`, `add_object`), the spatial `XYEnvironment`
engine (movement, bump, turning, registration), the two vacuum-world
environments and the `compare_agents` evaluation harness.

Conventions of the embedding:
* Python mutation is modelled by explicit state passing; an environment is a
  value, a mutating method is a function returning the updated value.
* Python runtime errors (`TypeError` for a call with the wrong number of
  arguments, `AttributeError` for a missing attribute, `KeyError` for a
  missing dict key) are modelled by `Except PyErr`.  An error aborts the
  surrounding computation, as an uncaught Python exception does.
* Python object identity is modelled by integer ids (`oid`): an environment
  holds a `store` with one record per distinct object, and the `objects` /
  `agents` registration lists hold ids (the same id can occur several times
  in `objects`, exactly as the same reference can occur twice in a Python
  list).
-/

/-- Python runtime errors that the embedded code can raise. -/
inductive PyErr : Type where
  | typeError : PyErr
  | attributeError : PyErr
  | keyError : PyErr
deriving DecidableEq, Repr

/-- Result of running a piece of embedded Python code. -/
abbrev PyR (α : Type) : Type := Except PyErr α

/- ## Abstract `Environment` protocol (agents.py lines 163-229)

The abstract layer is generic in the world state `σ`, the percept type `π`
and the action type `α`; a concrete environment supplies the overridable
methods (`percept`, `execute_action`, `exogenous_change`) through an
`EnvOps` record, exactly the three methods that `Environment.step` resolves
dynamically on `self`.  Agents carry the three attributes the abstract
layer reads: an id, the `alive` flag and the `program` function. -/

/-- An `Agent` as seen by the abstract `Environment` protocol: its identity,
its `alive` attribute (set to `True` in `Agent.__init__`, line 65) and its
`program` attribute, a function from a percept to an action (line 52).
Per the access-control invariant, `program` only sees the percept, so it is
a pure function here. -/
structure GAgent (π α : Type) : Type where
  aid : Nat
  alive : Bool
  program : π → α

/-- State of an abstract environment: an opaque world component plus the
registered agents (`self.agents`, line 176). -/
structure GEnv (σ π α : Type) : Type where
  world : σ
  agents : List (GAgent π α)

/-- The overridable methods that `Environment.step` dispatches on `self`:
`percept` (line 181, may raise — the base implementation does),
`execute_action` (line 185) and `exogenous_change` (line 193, a no-op by
default). -/
structure EnvOps (σ π α : Type) : Type where
  percept : GEnv σ π α → GAgent π α → PyR π
  execute_action : GEnv σ π α → Nat → α → GEnv σ π α
  exogenous_change : GEnv σ π α → GEnv σ π α

/-- `Environment.is_done` (lines 197-201): scan `self.agents`, return
`False` at the first agent whose `is_alive()` holds, else `True`; this is
`List.all` of the negated liveness flag.  (`Object.is_alive`, line 40, is
`hasattr(self, 'alive') and self.alive`; every `Agent.__init__` sets
`alive`, so for agents it is the `alive` flag itself.) -/
def Environment.is_done (st : GEnv σ π α) : Bool :=
  st.agents.all (fun a => ! a.alive)

/-- `Environment.step` (lines 203-213): if not done, first build the list
`actions = [agent.program(self.percept(agent)) for agent in self.agents]`
— every percept is computed against the current (pre-tick) state — then
apply `execute_action` serially over `zip(self.agents, actions)`, then run
`exogenous_change`. -/
def Environment.step (ops : EnvOps σ π α) (st : GEnv σ π α) :
    PyR (GEnv σ π α) :=
  if Environment.is_done st then .ok st
  else do
    let actions ← st.agents.mapM (fun a => do
      let p ← ops.percept st a
      pure (a.program p))
    let st1 := (st.agents.zip actions).foldl
      (fun s pr => ops.execute_action s pr.1.aid pr.2) st
    pure (ops.exogenous_change st1)

/-- `Environment.run` (lines 215-219): `for step in range(steps): if
self.is_done(): return; self.step()`. -/
def Environment.run (ops : EnvOps σ π α) : Nat → GEnv σ π α → PyR (GEnv σ π α)
  | 0, st => .ok st
  | n + 1, st =>
    if Environment.is_done st then .ok st
    else do
      let st1 ← Environment.step ops st
      Environment.run ops n st1

/-- `Environment.run` instrumented with a counter of how many `step()`
calls were performed; the first component is exactly `Environment.run`
(see `run_eq_runCount`). -/
def Environment.runCount (ops : EnvOps σ π α) :
    Nat → GEnv σ π α → PyR (GEnv σ π α) × Nat
  | 0, st => (.ok st, 0)
  | n + 1, st =>
    if Environment.is_done st then (.ok st, 0)
    else
      match Environment.step ops st with
      | .error e => (.error e, 1)
      | .ok st1 =>
        let r := Environment.runCount ops n st1
        (r.1, r.2 + 1)

/- ## Spatial environment: `XYEnvironment` (agents.py lines 232-322)

Objects here carry the attributes the spatial engine reads or writes:
class tag, `location`, `heading`, `bump`, `alive`, `performance`,
`holding`, `program`.  The record is generic in the percept type `π`
expected by the agent's `program`. -/

/-- Class tag of a physical object, standing in for its Python class.
`isinstance(obj, Obstacle)` holds for `Obstacle` and its subclass `Wall`
(lines 324-329); `Dirt` and `Agent` are the other classes the engine
tests. -/
inductive ObjKind : Type where
  | agentKind : ObjKind
  | dirt : ObjKind
  | wall : ObjKind
  | obstacle : ObjKind
  | other : ObjKind
deriving DecidableEq, Repr

/-- `isinstance(obj, Obstacle)`: true for `Obstacle` and its subclass
`Wall`. -/
def ObjKind.isObstacle : ObjKind → Bool
  | .wall => true
  | .obstacle => true
  | _ => false

/-- `isinstance(obj, Dirt)`. -/
def ObjKind.isDirt : ObjKind → Bool
  | .dirt => true
  | _ => false

/-- `isinstance(obj, Agent)` (used by `Environment.add_object`,
line 226). -/
def ObjKind.isAgent : ObjKind → Bool
  | .agentKind => true
  | _ => false

/-- A physical object of an `XYEnvironment`, identified by `oid` (Python
object identity).  `heading` is an attribute the engine reads but never
initialises; the record models an object on which it has been set. -/
structure XObj (π : Type) : Type where
  oid : Nat
  kind : ObjKind
  location : Int × Int
  heading : Int × Int
  bump : Bool
  alive : Bool
  performance : Int
  holding : List Nat
  program : π → String

/-- State of an `XYEnvironment` (lines 240-241): the grid bounds and the
two registration lists, plus the backing store giving each object id its
current attribute values. -/
structure XYEnv (π : Type) : Type where
  width : Nat
  height : Nat
  store : List (XObj π)
  objects : List Nat
  agents : List Nat

/-- Dereference an object id in the environment's store. -/
def XYEnv.getObj (e : XYEnv π) (oid : Nat) : Option (XObj π) :=
  e.store.find? (fun o => o.oid = oid)

/-- Mutate the object with the given id (attribute assignment on a Python
object: every store entry carrying that identity is updated). -/
def XYEnv.setObj (e : XYEnv π) (oid : Nat) (f : XObj π → XObj π) : XYEnv π :=
  { e with store := e.store.map (fun o => if o.oid = oid then f o else o) }

/-- `XYEnvironment.objects_at` (lines 243-245):
`[obj for obj in self.objects if obj.location == location]` (as ids, in
`objects` order, duplicates included). -/
def XYEnvironment.objects_at (e : XYEnv π) (loc : Int × Int) : List Nat :=
  e.objects.filter (fun oid =>
    match e.getObj oid with
    | some o => o.location = loc
    | none => false)

/-- `XYEnvironment.find_at` (lines 247-255): true iff some object at
`location` is an instance of the class described by the tag predicate
`p`.  (`some(pred, seq)` from `utils` — not under `src/` — is, per the
spec, "true iff any entity at location exhibits the given capability";
it is `List.any` here.) -/
def XYEnvironment.find_at (e : XYEnv π) (p : ObjKind → Bool)
    (loc : Int × Int) : Bool :=
  (XYEnvironment.objects_at e loc).any (fun oid =>
    match e.getObj oid with
    | some o => p o.kind
    | none => false)

/-- `vector_add` from `utils` (not under `src/`). Modelled from the spec:
"`Forward`: attempt to move to `location + heading`" — componentwise sum
of the two pairs. -/
def vector_add (a b : Int × Int) : Int × Int :=
  (a.1 + b.1, a.2 + b.2)

/-- `XYEnvironment.move_to` (lines 292-302): if an `Obstacle` instance is
at the destination, set the mover's `bump` and leave its location alone;
otherwise clear `bump` and move it.  (The `print` statements carry no
state.) -/
def XYEnvironment.move_to (e : XYEnv π) (oid : Nat)
    (destination : Int × Int) : XYEnv π :=
  if XYEnvironment.find_at e ObjKind.isObstacle destination then
    e.setObj oid (fun o => { o with bump := true })
  else
    e.setObj oid (fun o => { o with bump := false, location := destination })

/-- `XYEnvironment.execute_action` (lines 268-283).

* `TurnRight`/`TurnLeft` call `turn_heading(agent.heading, ∓1)`
  (lines 270, 272); the module-level `turn_heading` (lines 319-322) has
  three required parameters `(self, heading, inc)` — the stray `self` is
  a leftover — so the two-argument call raises `TypeError` before any
  state changes.
* `Forward` moves to `vector_add(agent.heading, agent.location)`.
* `Grab` filters `objects_at(agent.location)` through
  `obj.is_grabable(agent)`; no class in the program defines
  `is_grabable`, so the first object tested (and the agent itself is at
  its own location) raises `AttributeError`; only an empty cell lets the
  branch fall through.
* `Release` pops the most recently held object, if any.
* Every branch that completes ends with the unconditional
  `agent.bump = False` of line 283 — it runs after `move_to`, so it
  overwrites the `bump = True` a collision just set.

The acting agent is passed by reference in Python; an id not backed by
the store raises `AttributeError` at the first attribute read. -/
def XYEnvironment.execute_action (e : XYEnv π) (aid : Nat)
    (action : String) : PyR (XYEnv π) :=
  if action = "TurnRight" then .error .typeError
  else if action = "TurnLeft" then .error .typeError
  else if action = "Forward" then
    match e.getObj aid with
    | none => .error .attributeError
    | some a =>
      let e1 := XYEnvironment.move_to e aid
        (vector_add a.heading a.location)
      .ok (e1.setObj aid (fun o => { o with bump := false }))
  else if action = "Grab" then
    match e.getObj aid with
    | none => .error .attributeError
    | some a =>
      if XYEnvironment.objects_at e a.location = [] then
        .ok (e.setObj aid (fun o => { o with bump := false }))
      else .error .attributeError
  else if action = "Release" then
    .ok ((e.setObj aid (fun o => { o with holding := o.holding.dropLast }))
      |>.setObj aid (fun o => { o with bump := false }))
  else
    .ok (e.setObj aid (fun o => { o with bump := false }))

/-- `XYEnvironment.percept` (lines 263-266): evaluates
`self.objects_near(agent)`, but `objects_near` (lines 257-261) has two
required parameters `(location, radius)`; the one-argument call raises
`TypeError` on every invocation. -/
def XYEnvironment.percept (_e : XYEnv π) (_aid : Nat) : PyR (List String) :=
  .error .typeError

/-- `XYEnvironment.default_location` (lines 289-290): returns
`(random.choice(self.width), random.choice(self.height))`; `random.choice`
requires a sequence and `self.width`/`self.height` are integers, so the
call raises `TypeError`. -/
def XYEnvironment.default_location (_e : XYEnv π) : PyR (Int × Int) :=
  .error .typeError

/-- `Environment.add_object` (lines 221-229) as invoked through
`XYEnvironment.add_object` with an explicit (truthy) location: set the
object's `location`, append it to `objects`, and, if it is an `Agent`,
set `performance = 0` and append it to `agents`. -/
def Environment.add_object_xy (e : XYEnv π) (obj : XObj π)
    (loc : Int × Int) : XYEnv π :=
  let obj1 := { obj with
    location := loc,
    performance := if obj.kind.isAgent then 0 else obj.performance }
  { e with
    store := e.store ++ [obj1],
    objects := e.objects ++ [obj1.oid],
    agents := if obj.kind.isAgent then e.agents ++ [obj1.oid]
              else e.agents }

/-- `XYEnvironment.add_object` (lines 304-308): call
`Environment.add_object`, then set `object.holding = []` (the `held`
attribute, also set here, is never read anywhere), then — in addition to
the append `Environment.add_object` already performed — append the same
object to `self.objects` a second time (line 308). -/
def XYEnvironment.add_object (e : XYEnv π) (obj : XObj π)
    (loc : Int × Int) : XYEnv π :=
  let e1 := Environment.add_object_xy e obj loc
  let e2 := e1.setObj obj.oid (fun o => { o with holding := [] })
  { e2 with objects := e2.objects ++ [obj.oid] }

/-- `is_alive` of the object registered under `aid` (line 40:
`hasattr(self, 'alive') and self.alive`). -/
def XYEnvironment.is_alive (e : XYEnv π) (aid : Nat) : Bool :=
  match e.getObj aid with
  | some o => o.alive
  | none => false

/-- `Environment.is_done` as inherited by `XYEnvironment`. -/
def XYEnvironment.is_done (e : XYEnv π) : Bool :=
  e.agents.all (fun aid => ! XYEnvironment.is_alive e aid)

/-- `Environment.step` as inherited by a raw `XYEnvironment`: the
dynamically dispatched `self.percept` is `XYEnvironment.percept` and
`self.execute_action` is `XYEnvironment.execute_action`;
`exogenous_change` is the base no-op. -/
def XYEnvironment.step (e : XYEnv (List String)) : PyR (XYEnv (List String)) :=
  if XYEnvironment.is_done e then .ok e
  else do
    let actions ← e.agents.mapM (fun aid => do
      let p ← XYEnvironment.percept e aid
      match e.getObj aid with
      | some a => pure (a.program p)
      | none => .error .attributeError)
    let e1 ← (e.agents.zip actions).foldlM
      (fun s pr => XYEnvironment.execute_action s pr.1 pr.2) e
    pure e1

/- ## Grid vacuum environment: `VacuumEnvironment` (agents.py lines 338-364)

Its percept type is the pair `('Dirty'|'Clean', 'Bump'|'None')`, so agent
programs here have type `String × String → String`. -/

/-- Percept type of the grid vacuum environment. -/
abbrev VacPercept : Type := String × String

/-- `VacuumEnvironment.percept` (lines 352-357): the pair of the dirt
status of the agent's cell and the agent's `bump` flag, rendered as the
strings of the source (`if_(cond, a, b)` from `utils` — not under `src/` —
is, per its two uses in the spec, the conditional expression). -/
def VacuumEnvironment.percept (e : XYEnv VacPercept) (aid : Nat) :
    PyR VacPercept :=
  match e.getObj aid with
  | none => .error .attributeError
  | some a =>
    .ok (if XYEnvironment.find_at e ObjKind.isDirt a.location
           then "Dirty" else "Clean",
         if a.bump then "Bump" else "None")

/-- `VacuumEnvironment.execute_action` (lines 359-364): `Suck` on a dirty
cell awards `+100`; every action then costs `-1`; finally the spatial
`XYEnvironment.execute_action` runs (for `Suck` it only executes the
trailing `agent.bump = False` of line 283). -/
def VacuumEnvironment.execute_action (e : XYEnv VacPercept) (aid : Nat)
    (action : String) : PyR (XYEnv VacPercept) :=
  match e.getObj aid with
  | none => .error .attributeError
  | some a =>
    let e1 :=
      if action = "Suck" ∧ XYEnvironment.find_at e ObjKind.isDirt a.location
      then e.setObj aid (fun o => { o with performance := o.performance + 100 })
      else e
    let e2 := e1.setObj aid (fun o => { o with performance := o.performance - 1 })
    XYEnvironment.execute_action e2 aid action

/-- `Environment.step` as inherited by `VacuumEnvironment`:
`self.percept` resolves to `VacuumEnvironment.percept`,
`self.execute_action` to `VacuumEnvironment.execute_action`;
`exogenous_change` is the base no-op. -/
def VacuumEnvironment.step (e : XYEnv VacPercept) : PyR (XYEnv VacPercept) :=
  if XYEnvironment.is_done e then .ok e
  else do
    let actions ← e.agents.mapM (fun aid => do
      let p ← VacuumEnvironment.percept e aid
      match e.getObj aid with
      | some a => pure (a.program p)
      | none => .error .attributeError)
    let e1 ← (e.agents.zip actions).foldlM
      (fun s pr => VacuumEnvironment.execute_action s pr.1 pr.2) e
    pure e1

/-- `n` consecutive `step()` calls on a `VacuumEnvironment` (an error in
any step aborts the run). -/
def VacuumEnvironment.steps : Nat → XYEnv VacPercept → PyR (XYEnv VacPercept)
  | 0, e => .ok e
  | n + 1, e => do
    let e1 ← VacuumEnvironment.step e
    VacuumEnvironment.steps n e1

/-- Add `k` to the performance of the object registered under `aid`,
leaving every other attribute and every other object untouched. -/
def XYEnv.addPerf (e : XYEnv π) (aid : Nat) (k : Int) : XYEnv π :=
  e.setObj aid (fun o => { o with performance := o.performance + k })

/- ## Two-location vacuum environment: `TrivialVacuumEnvironment`
(agents.py lines 367-401) -/

/-- `loc_A` (line 109). -/
def loc_A : Int × Int := (0, 0)

/-- `loc_B` (line 109). -/
def loc_B : Int × Int := (1, 0)

/-- State of a `TrivialVacuumEnvironment` holding one registered agent:
the status dict `{loc_A: ..., loc_B: ...}` (line 374), the agent's
`location` and its `performance` (set to `0` by `Environment.add_object`,
line 227). -/
structure TrivEnv : Type where
  statusA : String
  statusB : String
  agent_location : Int × Int
  performance : Int
deriving DecidableEq, Repr

/-- Read `self.status[loc]`: the dict has exactly the keys `loc_A` and
`loc_B`; any other key raises `KeyError` (`none` here). -/
def TrivEnv.statusAt (e : TrivEnv) (loc : Int × Int) : Option String :=
  if loc = loc_A then some e.statusA
  else if loc = loc_B then some e.statusB
  else none

/-- Write `self.status[loc] = v` for the two resident keys. -/
def TrivEnv.setStatus (e : TrivEnv) (loc : Int × Int) (v : String) : TrivEnv :=
  if loc = loc_A then { e with statusA := v }
  else if loc = loc_B then { e with statusB := v }
  else e

/-- `TrivialVacuumEnvironment.execute_action` (lines 385-397): `Right`
moves to `loc_B` at `-1`, `Left` to `loc_A` at `-1`; `Suck` awards `+10`
if the current location's status is `'Dirty'` and then sets it `'Clean'`
(reading `self.status[agent.location]` raises `KeyError` off the two
locations); any other action is a no-op. -/
def TrivialVacuumEnvironment.execute_action (e : TrivEnv) (action : String) :
    PyR TrivEnv :=
  if action = "Right" then
    .ok { e with agent_location := loc_B, performance := e.performance - 1 }
  else if action = "Left" then
    .ok { e with agent_location := loc_A, performance := e.performance - 1 }
  else if action = "Suck" then
    match e.statusAt e.agent_location with
    | none => .error .keyError
    | some st =>
      let e1 := if st = "Dirty"
        then { e with performance := e.performance + 10 } else e
      .ok (e1.setStatus e1.agent_location "Clean")
  else .ok e

/-- Execute a fixed list of actions in order through
`TrivialVacuumEnvironment.execute_action`. -/
def TrivialVacuumEnvironment.runActions (e : TrivEnv) :
    List String → PyR TrivEnv
  | [] => .ok e
  | act :: rest => do
    let e1 ← TrivialVacuumEnvironment.execute_action e act
    TrivialVacuumEnvironment.runActions e1 rest

/- ## Evaluation harness (agents.py lines 453-470)

The harness is generic in the environment type `E` and agent type `A`; the
three operations it invokes on an environment (`add_object`, `run`, and
reading the registered agent's `performance` afterwards) are supplied as a
record.  Environments are pure values here, so `copy.deepcopy` — a
structurally equal, independent copy — is the identity; "the originals are
never mutated" holds by construction in this embedding. -/

/-- The environment operations `test_agent` invokes. -/
structure HarnessOps (E A : Type) : Type where
  add_object : E → A → E
  run : E → Nat → E
  performance : E → A → Int

/-- `copy.deepcopy(envs)` (line 459) on pure values. -/
def deepcopy (envs : List E) : List E := envs

/-- `test_agent` (lines 462-470): for each environment, build one fresh
agent from the factory, register it, run for `steps`, and accumulate its
final performance; return `float(total)/len(envs)` as a rational. -/
def test_agent (ops : HarnessOps E A) (agentFactory : Unit → A)
    (steps : Nat) (envs : List E) : Rat :=
  let total : Int := envs.foldl
    (fun total env =>
      let agent := agentFactory ()
      let env1 := ops.add_object env agent
      let env2 := ops.run env1 steps
      total + ops.performance env2 agent)
    0
  (total : Rat) / (envs.length : Rat)

/-- `envs = [EnvFactory() for i in range(n)]` (line 458): each constructor
call consumes pseudo-random state, modelled by threading a seed through an
environment factory of type `Nat → E × Nat`. -/
def mkEnvs (envFactory : Nat → E × Nat) : Nat → Nat → List E × Nat
  | 0, seed => ([], seed)
  | n + 1, seed =>
    let p := envFactory seed
    let rest := mkEnvs envFactory n p.2
    (p.1 :: rest.1, rest.2)

/-- `compare_agents` (lines 453-460): construct the `n` environment
instances once, then give every agent factory, in input order, a deep copy
of that same list and pair it with its `test_agent` score. -/
def compare_agents (ops : HarnessOps E A) (envFactory : Nat → E × Nat)
    (agentFactories : List (Unit → A)) (n steps seed : Nat) :
    List ((Unit → A) × Rat) :=
  let envs := (mkEnvs envFactory n seed).1
  agentFactories.map (fun F => (F, test_agent ops F steps (deepcopy envs)))

/- ## Concrete scenario instances used by the closed theorems below -/

/-- Operations of the two-agent snapshot scenario: the world is a counter
that every executed action increments by `100`, and every agent perceives
the current counter value. -/
def snapOps : EnvOps Int Int Int where
  percept := fun st _ => .ok st.world
  execute_action := fun st _ _ => { st with world := st.world + 100 }
  exogenous_change := fun st => st

/-- Agent `B` of the snapshot scenario: registered first, so its action is
applied first and changes the world that `A` perceives. -/
def snapB : GAgent Int Int := ⟨0, true, fun p => p⟩

/-- Agent `A` of the snapshot scenario: registered second; its program
echoes its percept, so the action it executes records what it saw. -/
def snapA : GAgent Int Int := ⟨1, true, fun p => p⟩

/-- Pre-tick state of the snapshot scenario: counter `0`, agents `[B, A]`
in registration order. -/
def snapSt : GEnv Int Int Int := ⟨0, [snapB, snapA]⟩

/-- Trivial operations for the termination scenario. -/
def unitOps : EnvOps Unit Unit Unit where
  percept := fun _ _ => .ok ()
  execute_action := fun st _ _ => st
  exogenous_change := fun st => st

/-- An agent whose `alive` flag is `false`. -/
def deadAgent : GAgent Unit Unit := ⟨0, false, fun _ => ()⟩

/-- An environment whose only agent is `deadAgent`. -/
def deadSt : GEnv Unit Unit Unit := ⟨(), [deadAgent]⟩

/-- Agent of the collision scenario: at `(1, 1)`, heading East. -/
def bumpAgent : XObj Unit :=
  ⟨0, .agentKind, (1, 1), (1, 0), false, true, 0, [], fun _ => ""⟩

/-- A `Wall` at `(2, 1)`, directly ahead of `bumpAgent`. -/
def bumpWall : XObj Unit :=
  ⟨1, .wall, (2, 1), (0, 0), false, false, 0, [], fun _ => ""⟩

/-- The collision scenario: a 10 by 10 `XYEnvironment` on which the wall
and then the agent were registered through `XYEnvironment.add_object`. -/
def bumpEnv : XYEnv Unit :=
  XYEnvironment.add_object
    (XYEnvironment.add_object ⟨10, 10, [], [], []⟩ bumpWall (2, 1))
    bumpAgent (1, 1)

/-- Agent of the grid-vacuum scenario: alive, not bumped, and whose
program always answers `Suck`. -/
def suckAgent : XObj VacPercept :=
  ⟨0, .agentKind, (1, 1), (1, 0), false, true, 0, [], fun _ => "Suck"⟩

/-- A `Dirt` object on the agent's cell `(1, 1)`. -/
def suckDirt : XObj VacPercept :=
  ⟨1, .dirt, (1, 1), (0, 0), false, false, 0, [], fun _ => ""⟩

/-- The grid-vacuum scenario: dirt and then the agent registered through
`XYEnvironment.add_object` on a 10 by 10 grid. -/
def suckEnv : XYEnv VacPercept :=
  XYEnvironment.add_object
    (XYEnvironment.add_object ⟨10, 10, [], [], []⟩ suckDirt (1, 1))
    suckAgent (1, 1)

/-- A live agent for a raw `XYEnvironment` (its program is never reached,
since the default percept raises). -/
def aliveXYAgent : XObj (List String) :=
  ⟨0, .agentKind, (1, 1), (1, 0), false, true, 0, [], fun _ => "NoOp"⟩

/-- A raw `XYEnvironment` holding one live agent. -/
def aliveXYEnv : XYEnv (List String) :=
  XYEnvironment.add_object ⟨10, 10, [], [], []⟩ aliveXYAgent (1, 1)

/- ## Helper lemmas -/

/-- `Environment.run` is the first component of its instrumented variant
`Environment.runCount`. -/
lemma run_eq_runCount (ops : EnvOps σ π α) :
    ∀ (steps : Nat) (st : GEnv σ π α),
      Environment.run ops steps st = (Environment.runCount ops steps st).1 := by
  intro steps
  induction steps with
  | zero => intro st; rfl
  | succ n ih =>
    intro st
    unfold Environment.run Environment.runCount
    by_cases h : Environment.is_done st
    · simp [h]
    · simp only [h, if_neg, Bool.false_eq_true, if_false]
      cases hs : Environment.step ops st with
      | error e => rfl
      | ok st1 => exact ih st1

/-- The step counter of `Environment.runCount` never exceeds the step
budget. -/
lemma runCount_le (ops : EnvOps σ π α) :
    ∀ (steps : Nat) (st : GEnv σ π α),
      (Environment.runCount ops steps st).2 ≤ steps := by
  intro steps
  induction steps with
  | zero => intro st; simp [Environment.runCount]
  | succ n ih =>
    intro st
    unfold Environment.runCount
    by_cases h : Environment.is_done st
    · simp [h]
    · simp only [h, Bool.false_eq_true, if_false]
      cases hs : Environment.step ops st with
      | error e => simp
      | ok st1 => simpa using ih st1

/-- If the percepts of all agents, taken against the state `st`, evaluate
to the list `ps`, then the percept-and-program pass of `Environment.step`
evaluates to the corresponding actions, pairing each agent with the
percept computed against that same `st`. -/
lemma mapM_program_of_mapM_percept (ops : EnvOps σ π α) (st : GEnv σ π α) :
    ∀ (l : List (GAgent π α)) (ps : List π),
      l.mapM (fun a => ops.percept st a) = .ok ps →
      l.mapM (fun a => do
          let p ← ops.percept st a
          pure (a.program p)) =
        .ok (l.zipWith (fun a p => a.program p) ps) := by
  intro l
  induction l with
  | nil =>
    intro ps hps
    simp only [List.mapM_nil, pure, Except.pure] at hps
    cases hps
    rfl
  | cons a t ih =>
    intro ps hps
    simp only [List.mapM_cons] at hps ⊢
    cases hp : ops.percept st a with
    | error e => rw [hp] at hps; simp [Bind.bind, Except.bind] at hps
    | ok p =>
      rw [hp] at hps
      cases ht : t.mapM (fun a => ops.percept st a) with
      | error e =>
        rw [ht] at hps
        simp [Bind.bind, Except.bind, pure, Except.pure] at hps
      | ok rest =>
        rw [ht] at hps
        simp only [Bind.bind, Except.bind, pure, Except.pure] at hps
        cases hps
        rw [ih rest ht]
        simp [Bind.bind, Except.bind, pure, Except.pure, List.zipWith]

/- ## Claim theorems -/

/-- C1 — Percept snapshot guarantee.  In any environment, when `step()`
runs (the environment is not done) and the agents' percepts against the
pre-tick state `st` evaluate to `ps`, the whole tick equals: apply, in
registration order, each agent's action `program (percept st agent)` —
every percept taken against the same pre-tick `st`, never against a state
produced by an action of the same tick — and then the exogenous change. -/
theorem step_percepts_pretick (ops : EnvOps σ π α) (st : GEnv σ π α)
    (h : Environment.is_done st = false) (ps : List π)
    (hps : st.agents.mapM (fun a => ops.percept st a) = .ok ps) :
    Environment.step ops st = .ok (ops.exogenous_change
      ((st.agents.zip (st.agents.zipWith (fun a p => a.program p) ps)).foldl
        (fun s pr => ops.execute_action s pr.1.aid pr.2) st)) := by
  unfold Environment.step
  rw [h]
  simp only [Bool.false_eq_true, if_false]
  rw [mapM_program_of_mapM_percept ops st st.agents ps hps]
  rfl

/-- C1 witness: in the two-agent snapshot scenario, agent `B` acts first
and its action changes the world, yet the tick equals applying the actions
computed from percepts of the pre-tick state (`[0, 0]`, not `[0, 100]`). -/
theorem step_percepts_pretick_witness :
    Environment.is_done snapSt = false ∧
    snapSt.agents.mapM (fun a => snapOps.percept snapSt a) = .ok [0, 0] ∧
    Environment.step snapOps snapSt = .ok (snapOps.exogenous_change
      ((snapSt.agents.zip
          (snapSt.agents.zipWith (fun a p => a.program p) [0, 0])).foldl
        (fun s pr => snapOps.execute_action s pr.1.aid pr.2) snapSt)) :=
  ⟨rfl, rfl, step_percepts_pretick snapOps snapSt rfl [0, 0] rfl⟩

/-- C7 — Termination.  `is_done()` is true iff no registered agent is
alive (so an environment with no agents is immediately done); `run(steps)`
on an environment whose only agent is dead performs zero `step()` calls
and returns the state unchanged; and `run(steps)` performs at most `steps`
ticks. -/
theorem environment_termination (ops : EnvOps σ π α) (st : GEnv σ π α)
    (steps : Nat) :
    (Environment.is_done st = true ↔ ∀ a ∈ st.agents, a.alive = false)
    ∧ (st.agents = [] → Environment.is_done st = true)
    ∧ (∀ ag : GAgent π α, st.agents = [ag] → ag.alive = false →
        Environment.runCount ops steps st = (.ok st, 0))
    ∧ (Environment.runCount ops steps st).2 ≤ steps := by
  refine ⟨?_, ?_, ?_, runCount_le ops steps st⟩
  · unfold Environment.is_done
    simp [List.all_eq_true]
  · intro h
    unfold Environment.is_done
    rw [h]
    rfl
  · intro ag hag hdead
    have hdone : Environment.is_done st = true := by
      unfold Environment.is_done
      rw [hag]
      simp [hdead]
    cases steps with
    | zero => rfl
    | succ n =>
      unfold Environment.runCount
      rw [hdone]
      simp

/-- C7 witness: on the environment whose only agent is dead, `run(5)`
performs zero `step()` calls and leaves the state unchanged. -/
theorem environment_termination_witness :
    Environment.runCount unitOps 5 deadSt = (.ok deadSt, 0) :=
  (environment_termination unitOps deadSt 5).2.2.1 deadAgent rfl rfl

/-- C2 — Bump flag after a blocked `Forward` (evaluation at the failing
input).  With a `Wall` directly ahead, `Forward` leaves the agent's
location unchanged, but — because line 283 unconditionally executes
`agent.bump = False` after `move_to` set `bump = True` — the agent's
`bump` flag is `false` after `execute_action` returns, on the first and
on a repeated attempt, contradicting the claimed `bump = true`. -/
theorem xy_forward_wall_bump_eval :
    ((XYEnvironment.execute_action bumpEnv 0 "Forward").bind (fun e1 =>
      (XYEnvironment.execute_action e1 0 "Forward").map (fun e2 =>
        ((e1.getObj 0).map (fun a => (a.location, a.bump)),
         (e2.getObj 0).map (fun a => (a.location, a.bump)))))) =
    .ok (some ((1, 1), false), some ((1, 1), false)) := by
  rfl

/-- C3 — TurnLeft/TurnRight are not executable: the calls
`turn_heading(agent.heading, +1)` and `turn_heading(agent.heading, -1)`
pass two arguments to the three-required-parameter module function
`turn_heading(self, heading, inc)`, so `execute_action` raises
`TypeError` instead of rotating the heading through the 4-cycle. -/
theorem xy_turn_actions_typeerror (e : XYEnv π) (aid : Nat) :
    XYEnvironment.execute_action e aid "TurnLeft" = .error .typeError ∧
    XYEnvironment.execute_action e aid "TurnRight" = .error .typeError :=
  ⟨rfl, rfl⟩

/-- C4 — Registration appends twice in the spatial environment: one
`XYEnvironment.add_object` call appends the entity's identity to
`objects` twice (once inside the inherited `Environment.add_object`, once
at line 308), while the base `Environment.add_object` alone appends it
exactly once. -/
theorem xy_add_object_double_append (e : XYEnv π) (obj : XObj π)
    (loc : Int × Int) :
    (XYEnvironment.add_object e obj loc).objects =
      e.objects ++ [obj.oid, obj.oid] ∧
    (Environment.add_object_xy e obj loc).objects = e.objects ++ [obj.oid] := by
  constructor
  · show (e.objects ++ [obj.oid]) ++ [obj.oid] = e.objects ++ [obj.oid, obj.oid]
    simp
  · rfl

/-- C8 — Default placement is not executable: `default_location` evaluates
`random.choice(self.width)` with `width` an integer, and `random.choice`
requires a sequence, so the call raises `TypeError` instead of returning a
uniformly random in-grid coordinate. -/
theorem xy_default_location_typeerror (e : XYEnv π) :
    XYEnvironment.default_location e = .error .typeError :=
  rfl

/-- C6 counterexample — the claim as stated fails when the agent starts at
location B: with both locations dirty, the action sequence `Suck`,
`Right`, `Suck` run from `loc_B` ends with performance `9` (the second
`Suck` finds B already clean), not `19`. -/
theorem trivial_vacuum_suck_right_suck_from_B :
    TrivialVacuumEnvironment.runActions ⟨"Dirty", "Dirty", loc_B, 0⟩
      ["Suck", "Right", "Suck"] = .ok ⟨"Dirty", "Clean", loc_B, 9⟩ ∧
    (9 : Int) ≠ 19 := by
  exact ⟨rfl, by decide⟩

/-- C6 (amended) — Two-location vacuum scoring: with both locations
initially dirty and the agent starting at location A, the action sequence
`Suck`, `Right`, `Suck` ends with performance exactly `19`
(`10 - 1 + 10`), and `Right`/`Left` always move the agent to B/A at cost
`-1`. -/
theorem trivial_vacuum_suck_right_suck_scoring :
    TrivialVacuumEnvironment.runActions ⟨"Dirty", "Dirty", loc_A, 0⟩
      ["Suck", "Right", "Suck"] = .ok ⟨"Clean", "Clean", loc_B, 19⟩ ∧
    (∀ e : TrivEnv, TrivialVacuumEnvironment.execute_action e "Right" =
      .ok { e with agent_location := loc_B,
                   performance := e.performance - 1 }) ∧
    (∀ e : TrivEnv, TrivialVacuumEnvironment.execute_action e "Left" =
      .ok { e with agent_location := loc_A,
                   performance := e.performance - 1 }) :=
  ⟨rfl, fun _ => rfl, fun _ => rfl⟩

/-- Accumulating a fold of additions equals the initial value plus the sum
of the mapped list. -/
lemma foldl_add_eq_sum (g : E → Int) :
    ∀ (l : List E) (t : Int),
      l.foldl (fun acc env => acc + g env) t = t + (l.map g).sum := by
  intro l
  induction l with
  | nil => intro t; simp
  | cons x xs ih =>
    intro t
    simp only [List.foldl_cons, List.map_cons, List.sum_cons, ih]
    ring

/-- `test_agent` returns the average — sum over the environments of the
final performance of the agent freshly built, registered and run in each —
divided by the number of environments. -/
lemma test_agent_eq_sum (ops : HarnessOps E A) (F : Unit → A) (steps : Nat)
    (envs : List E) :
    test_agent ops F steps envs =
      (((envs.map (fun env =>
          ops.performance (ops.run (ops.add_object env (F ())) steps)
            (F ()))).sum : Int) : Rat) / (envs.length : Rat) := by
  show ((envs.foldl (fun total env =>
      total + ops.performance (ops.run (ops.add_object env (F ())) steps)
        (F ())) 0 : Int) : Rat) / (envs.length : Rat) = _
  rw [foldl_add_eq_sum]
  simp

/-- C5 — Harness fairness: `compare_agents` constructs the `n` environment
instances once (from the factory and the initial random seed) and pairs
every agent factory, in input order, with the average of its `n` final
performances, each factory being evaluated against deep copies of that
same pre-constructed environment list — the list in the right-hand side
does not depend on the factory, and the pure-value environments are never
mutated. -/
theorem compare_agents_fair (ops : HarnessOps E A)
    (envFactory : Nat → E × Nat) (agentFactories : List (Unit → A))
    (n steps seed : Nat) :
    compare_agents ops envFactory agentFactories n steps seed =
      agentFactories.map (fun F =>
        (F, (((((mkEnvs envFactory n seed).1).map (fun env =>
                ops.performance (ops.run (ops.add_object env (F ())) steps)
                  (F ()))).sum : Int) : Rat) /
            (((mkEnvs envFactory n seed).1.length : Nat) : Rat))) := by
  unfold compare_agents deepcopy
  apply List.map_congr_left
  intro F _
  rw [test_agent_eq_sum]

/-- C10 — The default spatial percept is not executable: whenever a raw
`XYEnvironment` actually runs a tick (some registered agent is alive),
`step()` raises the `TypeError` of the one-argument call
`self.objects_near(agent)` instead of returning the tag sequence of
nearby entities. -/
theorem xy_step_percept_typeerror (e : XYEnv (List String))
    (h : ∃ aid ∈ e.agents, XYEnvironment.is_alive e aid = true) :
    XYEnvironment.step e = .error .typeError := by
  obtain ⟨aid, hmem, halive⟩ := h
  have hdone : XYEnvironment.is_done e = false := by
    unfold XYEnvironment.is_done
    rw [List.all_eq_false]
    exact ⟨aid, hmem, by simp [halive]⟩
  unfold XYEnvironment.step
  rw [hdone]
  simp only [Bool.false_eq_true, if_false]
  cases hag : e.agents with
  | nil => rw [hag] at hmem; cases hmem
  | cons a t => rfl

/-- C10 witness: a raw 10 by 10 `XYEnvironment` holding one live agent
fails with `TypeError` on `step()`. -/
theorem xy_step_percept_typeerror_witness :
    XYEnvironment.step aliveXYEnv = .error .typeError :=
  xy_step_percept_typeerror aliveXYEnv ⟨0, by decide, rfl⟩

/-- `find?` by identity commutes with mapping an identity-preserving
update over the store. -/
lemma find?_oid_map (g : XObj π → XObj π) (hg : ∀ o, (g o).oid = o.oid)
    (bid : Nat) :
    ∀ l : List (XObj π),
      (l.map g).find? (fun o => o.oid = bid) =
        (l.find? (fun o => o.oid = bid)).map g := by
  intro l
  induction l with
  | nil => rfl
  | cons o t ih =>
    simp only [List.map_cons]
    by_cases h : o.oid = bid
    · rw [List.find?_cons_of_pos _ (by simp [hg, h]),
        List.find?_cons_of_pos _ (by simp [h])]
      rfl
    · rw [List.find?_cons_of_neg _ (by simp [hg, h]),
        List.find?_cons_of_neg _ (by simp [h])]
      exact ih

/-- Dereferencing after an identity-preserving mutation. -/
lemma getObj_setObj (e : XYEnv π) (aid bid : Nat) (f : XObj π → XObj π)
    (hf : ∀ o, (f o).oid = o.oid) :
    (e.setObj aid f).getObj bid =
      (e.getObj bid).map (fun o => if o.oid = aid then f o else o) := by
  unfold XYEnv.setObj XYEnv.getObj
  exact find?_oid_map (fun o => if o.oid = aid then f o else o)
    (fun o => by by_cases h : o.oid = aid <;> simp [h, hf]) bid e.store

/-- Two successive mutations of the same object compose. -/
lemma setObj_setObj (e : XYEnv π) (aid : Nat) (f g : XObj π → XObj π)
    (hf : ∀ o, (f o).oid = o.oid) :
    (e.setObj aid f).setObj aid g = e.setObj aid (fun o => g (f o)) := by
  unfold XYEnv.setObj
  simp only [List.map_map]
  refine congrArg (fun h => { e with store := List.map h e.store }) ?_
  funext o
  by_cases h : o.oid = aid
  · simp [Function.comp, h, hf]
  · simp [Function.comp, h]

/-- Pointwise-equal Boolean predicates give the same `any` over a list. -/
lemma any_congr_mem {l : List β} {p q : β → Bool}
    (h : ∀ x ∈ l, p x = q x) : l.any p = l.any q := by
  induction l with
  | nil => rfl
  | cons x t ih =>
    simp only [List.any_cons]
    rw [h x (List.mem_cons_self x t),
      ih (fun y hy => h y (List.mem_cons_of_mem x hy))]

/-- `objects_at` is unchanged by a mutation that moves nothing. -/
lemma objects_at_setObj (e : XYEnv π) (aid : Nat) (f : XObj π → XObj π)
    (hoid : ∀ o, (f o).oid = o.oid) (hloc : ∀ o, (f o).location = o.location)
    (loc : Int × Int) :
    XYEnvironment.objects_at (e.setObj aid f) loc =
      XYEnvironment.objects_at e loc := by
  unfold XYEnvironment.objects_at
  have hobjs : (e.setObj aid f).objects = e.objects := rfl
  rw [hobjs]
  apply List.filter_congr
  intro oid _
  rw [getObj_setObj e aid oid f hoid]
  cases hget : e.getObj oid with
  | none => rfl
  | some o =>
    by_cases h : o.oid = aid
    · simp [h, hloc]
    · simp [h]

/-- `find_at` is unchanged by a mutation that moves and re-tags
nothing. -/
lemma find_at_setObj (e : XYEnv π) (aid : Nat) (f : XObj π → XObj π)
    (hoid : ∀ o, (f o).oid = o.oid) (hkind : ∀ o, (f o).kind = o.kind)
    (hloc : ∀ o, (f o).location = o.location) (p : ObjKind → Bool)
    (loc : Int × Int) :
    XYEnvironment.find_at (e.setObj aid f) p loc =
      XYEnvironment.find_at e p loc := by
  unfold XYEnvironment.find_at
  rw [objects_at_setObj e aid f hoid hloc]
  apply any_congr_mem
  intro oid _
  rw [getObj_setObj e aid oid f hoid]
  cases hget : e.getObj oid with
  | none => rfl
  | some o =>
    by_cases h : o.oid = aid
    · simp [h, hkind]
    · simp [h]

/-- Adding zero performance changes nothing. -/
lemma addPerf_zero (e : XYEnv π) (aid : Nat) : e.addPerf aid 0 = e := by
  unfold XYEnv.addPerf XYEnv.setObj
  have h1 : ∀ o ∈ e.store,
      (if o.oid = aid then { o with performance := o.performance + 0 }
       else o) = o := by
    intro o _
    by_cases h : o.oid = aid
    · rw [if_pos h]; cases o; simp
    · rw [if_neg h]
  rw [List.map_congr_left h1]
  show ({ e with store := e.store.map (fun a => a) } : XYEnv π) = e
  rw [List.map_id']

/-- Two performance additions merge. -/
lemma addPerf_addPerf (e : XYEnv π) (aid : Nat) (j k : Int) :
    (e.addPerf aid j).addPerf aid k = e.addPerf aid (j + k) := by
  unfold XYEnv.addPerf
  rw [setObj_setObj e aid
    (fun o => { o with performance := o.performance + j })
    (fun o => { o with performance := o.performance + k })
    (fun o => rfl)]
  unfold XYEnv.setObj
  refine congrArg (fun h => { e with store := List.map h e.store }) ?_
  funext o
  by_cases h : o.oid = aid
  · simp only [if_pos h]
    cases o
    simp only [XObj.mk.injEq, and_true, true_and]
    omega
  · simp [h]

/-- `VacuumEnvironment.percept` on a not-bumped agent standing on dirt is
`('Dirty', 'None')`. -/
lemma vacuum_percept_dirty (e : XYEnv VacPercept) (aid : Nat)
    (a : XObj VacPercept) (hget : e.getObj aid = some a)
    (hb : a.bump = false)
    (hdirt : XYEnvironment.find_at e ObjKind.isDirt a.location = true) :
    VacuumEnvironment.percept e aid = .ok ("Dirty", "None") := by
  unfold VacuumEnvironment.percept
  rw [hget]
  simp [hdirt, hb]


lemma vacuum_step_suck (e : XYEnv VacPercept) (aid : Nat)
    (a : XObj VacPercept)
    (hag : e.agents = [aid])
    (hget : e.getObj aid = some a)
    (halive : a.alive = true)
    (hbump : ∀ o ∈ e.store, o.oid = aid → o.bump = false)
    (hprog : a.program = fun _ => "Suck")
    (hdirt : XYEnvironment.find_at e ObjKind.isDirt a.location = true) :
    VacuumEnvironment.step e = .ok (e.addPerf aid 99) := by
  have ha_mem : a ∈ e.store := List.mem_of_find?_eq_some hget
  have ha_oid : a.oid = aid := by
    have := List.find?_some hget
    simpa using this
  have ha_bump : a.bump = false := hbump a ha_mem ha_oid
  have hdone : XYEnvironment.is_done e = false := by
    unfold XYEnvironment.is_done
    rw [hag]
    simp [XYEnvironment.is_alive, hget, halive]
  have hpercept := vacuum_percept_dirty e aid a hget ha_bump hdirt
  have hexec : VacuumEnvironment.execute_action e aid "Suck" =
      .ok (e.addPerf aid 99) := by
    unfold VacuumEnvironment.execute_action
    rw [hget]
    dsimp only
    rw [if_pos ⟨rfl, hdirt⟩]
    show Except.ok
      ((((e.setObj aid
            (fun o => { o with performance := o.performance + 100 })).setObj
          aid (fun o => { o with performance := o.performance - 1 })).setObj
        aid (fun o => { o with bump := false }))) = _
    rw [setObj_setObj e aid
      (fun o => { o with performance := o.performance + 100 })
      (fun o => { o with performance := o.performance - 1 })
      (fun o => rfl)]
    rw [setObj_setObj e aid
      (fun o => { o with performance := o.performance + 100 - 1 })
      (fun o => { o with bump := false })
      (fun o => rfl)]
    unfold XYEnv.addPerf XYEnv.setObj
    refine congrArg (fun s => Except.ok ({ e with store := s } : XYEnv VacPercept)) ?_
    apply List.map_congr_left
    intro o ho
    by_cases h : o.oid = aid
    · have hob : o.bump = false := hbump o ho h
      simp only [if_pos h]
      cases o
      simp only [XObj.mk.injEq, and_true, true_and] at hob ⊢
      refine ⟨hob.symm, by omega⟩
    · simp [h]
  unfold VacuumEnvironment.step
  rw [hdone]
  simp only [Bool.false_eq_true, if_false]
  rw [hag]
  have hf : (do
      let p ← VacuumEnvironment.percept e aid
      match e.getObj aid with
      | some a2 => pure (a2.program p)
      | none => Except.error PyErr.attributeError) = (pure "Suck" : PyR String) := by
    rw [hpercept, hget]
    show Except.ok (a.program ("Dirty", "None")) = _
    rw [hprog]
    rfl
  simp only [List.mapM_cons, List.mapM_nil, hf, pure_bind, List.zip_cons_cons,
    List.zip_nil_left, List.foldlM_cons, List.foldlM_nil, hexec]
  rfl

/-- C9 — Implicit frame property of grid-vacuum `Suck`: a lone live agent
standing on `Dirt` whose program always answers `Suck` can run any number
of ticks; after `n` ticks the environment differs from the initial one
only by `+99 * n` on the agent's performance — in particular the `Dirt`
entity is never removed — and the percept after those ticks still reports
`('Dirty', 'None')`. -/
theorem vacuum_suck_frame (n : Nat) :
    ∀ (e : XYEnv VacPercept) (aid : Nat) (a : XObj VacPercept),
      e.agents = [aid] →
      e.getObj aid = some a →
      a.alive = true →
      (∀ o ∈ e.store, o.oid = aid → o.bump = false) →
      a.program = (fun _ => "Suck") →
      XYEnvironment.find_at e ObjKind.isDirt a.location = true →
      VacuumEnvironment.steps n e = .ok (e.addPerf aid (99 * (n : Int))) ∧
      XYEnvironment.find_at (e.addPerf aid (99 * (n : Int))) ObjKind.isDirt
        a.location = true ∧
      VacuumEnvironment.percept (e.addPerf aid (99 * (n : Int))) aid =
        .ok ("Dirty", "None") := by
  induction n with
  | zero =>
    intro e aid a hag hget halive hbump hprog hdirt
    simp only [Nat.cast_zero, mul_zero, addPerf_zero]
    have ha_mem : a ∈ e.store := List.mem_of_find?_eq_some hget
    have ha_oid : a.oid = aid := by simpa using List.find?_some hget
    exact ⟨rfl, hdirt,
      vacuum_percept_dirty e aid a hget (hbump a ha_mem ha_oid) hdirt⟩
  | succ n ih =>
    intro e aid a hag hget halive hbump hprog hdirt
    have ha_oid : a.oid = aid := by simpa using List.find?_some hget
    have hstep := vacuum_step_suck e aid a hag hget halive hbump hprog hdirt
    have hag1 : (e.addPerf aid 99).agents = [aid] := hag
    have hget1 : (e.addPerf aid 99).getObj aid =
        some { a with performance := a.performance + 99 } := by
      unfold XYEnv.addPerf
      rw [getObj_setObj e aid aid
        (fun o => { o with performance := o.performance + 99 })
        (fun o => rfl), hget]
      simp [ha_oid]
    have hbump1 : ∀ o ∈ (e.addPerf aid 99).store, o.oid = aid →
        o.bump = false := by
      intro o ho hoid
      unfold XYEnv.addPerf XYEnv.setObj at ho
      simp only [List.mem_map] at ho
      obtain ⟨o0, ho0, rfl⟩ := ho
      by_cases h : o0.oid = aid
      · rw [if_pos h]
        exact hbump o0 ho0 h
      · rw [if_neg h] at hoid ⊢
        exact hbump o0 ho0 hoid
    have hdirt1 : XYEnvironment.find_at (e.addPerf aid 99) ObjKind.isDirt
        a.location = true := by
      unfold XYEnv.addPerf
      rw [find_at_setObj e aid
        (fun o => { o with performance := o.performance + 99 })
        (fun o => rfl) (fun o => rfl) (fun o => rfl)]
      exact hdirt
    obtain ⟨ihsteps, ihdirt, ihperc⟩ := ih (e.addPerf aid 99) aid
      { a with performance := a.performance + 99 } hag1 hget1 halive hbump1
      hprog hdirt1
    have harith : (99 : Int) + 99 * (n : Int) = 99 * ((n + 1 : Nat) : Int) := by
      push_cast
      ring
    refine ⟨?_, ?_, ?_⟩
    · show VacuumEnvironment.steps (n + 1) e =
        .ok (e.addPerf aid (99 * ((n + 1 : Nat) : Int)))
      unfold VacuumEnvironment.steps
      rw [hstep]
      show VacuumEnvironment.steps n (e.addPerf aid 99) = _
      rw [ihsteps, addPerf_addPerf, harith]
    · have h2 := ihdirt
      rw [addPerf_addPerf, harith] at h2
      exact h2
    · have h2 := ihperc
      rw [addPerf_addPerf, harith] at h2
      exact h2

/-- C9 witness: in the concrete dirt-and-agent scenario, three ticks yield
exactly `+297` performance and the percept still reports dirt. -/
theorem vacuum_suck_frame_witness :
    VacuumEnvironment.steps 3 suckEnv =
      .ok (suckEnv.addPerf 0 (99 * ((3 : Nat) : Int))) ∧
    XYEnvironment.find_at (suckEnv.addPerf 0 (99 * ((3 : Nat) : Int)))
      ObjKind.isDirt suckAgent.location = true ∧
    VacuumEnvironment.percept (suckEnv.addPerf 0 (99 * ((3 : Nat) : Int)))
      0 = .ok ("Dirty", "None") :=
  vacuum_suck_frame 3 suckEnv 0 suckAgent rfl rfl rfl (by decide) rfl rfl
